import Mathlib

/-!
Verification of the sales-intelligence-mcp protocol server and API client.

The development shallowly embeds the JSON-RPC-over-stdio message loop
(`src/index.ts`, the server class `SalesIntelligenceMCPServer`), the tool
registry (`src/tools/index.ts`), the four registered tool handlers, and the
HTTP client wrapper (`src/auth/apiClient.ts`, plus the duplicated variant
client found in the repository).  JavaScript runtime behaviour that the code
relies on (property access on non-objects, string coercion of template
interpolations, truthiness, destructuring of null/undefined) is modelled
explicitly.  Environment-dependent effects (the HTTP backend, `JSON.parse`,
and the markdown formatting functions that the specification excludes from
the core as deterministic string templating) are supplied through an `Env`
record, so every server-level function is a total, executable Lean function
of the request and the environment.
-/

/-- A JSON value, as produced by `JSON.parse`.  Numbers are modelled as
integers (every number appearing in the claims and tests is integral). -/
inductive JVal where
  | null
  | bool (b : Bool)
  | num (n : Int)
  | str (s : String)
  | arr (elems : List JVal)
  | obj (fields : List (String × JVal))

/-- A JSON-RPC request id: the TypeScript interface declares
`id?: number | string`. -/
inductive RpcId where
  | num (n : Int)
  | str (s : String)
deriving DecidableEq

/-- Character-list test: does `p` occur at the start of `s`?
Models `String.prototype.startsWith` on the underlying characters. -/
def leadsWithL : List Char → List Char → Bool
  | _, [] => true
  | [], _ :: _ => false
  | a :: as, b :: bs => a == b && leadsWithL as bs

/-- Does `pat` occur as a contiguous run anywhere inside `s`?  Models
`String.prototype.includes`. -/
def occursInL (pat : List Char) : List Char → Bool
  | [] => pat.isEmpty
  | c :: rest => leadsWithL (c :: rest) pat || occursInL pat rest

/-- String version of `leadsWithL`: models `s.startsWith(pat)`. -/
def jsStartsWith (s pat : String) : Bool := leadsWithL s.data pat.data

/-- String version of `occursInL`: models `s.includes(pat)`. -/
def strHas (s pat : String) : Bool := occursInL pat.data s.data

/-- Whitespace characters removed by `String.prototype.trim` (the code only
ever meets ASCII whitespace on the trimmed paths). -/
def isJsSpace (c : Char) : Bool :=
  c == ' ' || c == '\t' || c == '\n' || c == '\r'

/-- Models `s.trim()`. -/
def jsTrim (s : String) : String :=
  ⟨((s.data.dropWhile isJsSpace).reverse.dropWhile isJsSpace).reverse⟩

/-- Models `s.substring(0, n)` (the 200-character previews). -/
def jsTake (s : String) (n : Nat) : String := ⟨s.data.take n⟩

/-- Property access `v[k]` on an already non-nullish value: objects look the
key up, every other value yields `undefined` (`none`). -/
def jsGetProp : JVal → String → Option JVal
  | .obj fields, k => fields.lookup k
  | _, _ => none

/-- Index access `v[0]` on a non-nullish value: arrays yield their head,
non-empty strings their first character, objects the field named "0". -/
def jsIndex0 : JVal → Option JVal
  | .arr (x :: _) => some x
  | .arr [] => none
  | .str s => match s.data with
    | [] => none
    | c :: _ => some (.str ⟨[c]⟩)
  | .obj fields => fields.lookup "0"
  | _ => none

mutual

/-- JavaScript string coercion `String(v)` of a defined value. -/
def jsToStrV : JVal → String
  | .null => "null"
  | .bool true => "true"
  | .bool false => "false"
  | .num n => toString n
  | .str s => s
  | .arr elems => jsToStrArr elems
  | .obj _ => "[object Object]"

/-- Array coercion: elements joined with commas (`String([1,2]) = "1,2"`). -/
def jsToStrArr : List JVal → String
  | [] => ""
  | [x] => jsToStrV x
  | x :: xs => jsToStrV x ++ "," ++ jsToStrArr xs

end

/-- JavaScript string coercion `String(v)` (used by template literals and by
property-key coercion); `undefined` is the `none` case. -/
def jsToStr : Option JVal → String
  | none => "undefined"
  | some v => jsToStrV v

/-- JavaScript truthiness of a possibly-undefined value. -/
def jsTruthy : Option JVal → Bool
  | none => false
  | some .null => false
  | some (.bool b) => b
  | some (.num n) => n != 0
  | some (.str s) => s != ""
  | some (.arr _) => true
  | some (.obj _) => true

/-- Models `x || d` for string-valued `x` (empty string counts as falsy). -/
def jsOrStr (x : Option String) (d : String) : String :=
  match x with
  | some s => if s == "" then d else s
  | none => d

/-- Models `x || 'Search failed'`-style defaulting followed by `Error(x)`
message coercion. -/
def jsStrOrDefault (x : Option JVal) (d : String) : String :=
  if jsTruthy x then jsToStr x else d

/-- Optional chaining `r?.k`: `undefined`/`null` short-circuit to
`undefined`, anything else is a plain property access. -/
def jsOptChain (r : Option JVal) (k : String) : Option JVal :=
  match r with
  | none => none
  | some .null => none
  | some v => jsGetProp v k

/-- Models `x || []`. -/
def jsOrEmptyArr (x : Option JVal) : JVal :=
  if jsTruthy x then
    match x with
    | some v => v
    | none => .arr []
  else .arr []

/-- Models `v.length === 0` under JavaScript semantics: arrays and strings
compare their length, any other value has `length === undefined`, and
`undefined === 0` is false. -/
def jsLenEqZero : JVal → Bool
  | .arr elems => elems.isEmpty
  | .str s => s.data.isEmpty
  | _ => false

/-- Runtime TypeError message for reading a property of `undefined`. -/
def cannotReadOfMissing (k : String) : String :=
  "Cannot read properties of undefined (reading \x27" ++ k ++ "\x27)"

/-- Runtime TypeError message for reading a property of `null`. -/
def cannotReadNull (k : String) : String :=
  "Cannot read properties of null (reading \x27" ++ k ++ "\x27)"

/-- One zod validation issue: a field path and a message, as rendered by the
tools' `formatValidationError` helpers (`issue.path.join('.')` and
`issue.message`).  Zod itself is an external library (spec section 1 lists
input validators as collaborators); the validators below reproduce the
schemas declared in each tool file. -/
structure ZIssue where
  path : List String
  message : String
deriving DecidableEq

/-- Zod's name for the runtime type of a received value. -/
def zTypeNameV : JVal → String
  | .null => "null"
  | .bool _ => "boolean"
  | .num _ => "number"
  | .str _ => "string"
  | .arr _ => "array"
  | .obj _ => "object"

/-- Field lookup on a parsed JSON object. -/
def getF (fields : List (String × JVal)) (k : String) : Option JVal :=
  fields.lookup k

/-- Validates `z.string().optional()` at a key. -/
def zOptString (fields : List (String × JVal)) (key : String) :
    List ZIssue × Option String :=
  match getF fields key with
  | none => ([], none)
  | some (.str s) => ([], some s)
  | some v => ([⟨[key], "Expected string, received " ++ zTypeNameV v⟩], none)

/-- Validates `z.string().min(1, emptyMsg)` at a required key. -/
def zReqStringMin1 (fields : List (String × JVal)) (key emptyMsg : String) :
    List ZIssue × String :=
  match getF fields key with
  | none => ([⟨[key], "Required"⟩], "")
  | some (.str s) => if s == "" then ([⟨[key], emptyMsg⟩], s) else ([], s)
  | some v => ([⟨[key], "Expected string, received " ++ zTypeNameV v⟩], "")

/-- The `'A' | 'B' | ...` rendering of an enum option list. -/
def zEnumUnion (options : List String) : String :=
  String.intercalate " | " (options.map fun o => "\x27" ++ o ++ "\x27")

/-- Validates `z.enum(options).optional()` at a key. -/
def zOptEnum (fields : List (String × JVal)) (key : String)
    (options : List String) : List ZIssue × Option String :=
  match getF fields key with
  | none => ([], none)
  | some (.str s) =>
      if options.contains s then ([], some s)
      else ([⟨[key], "Invalid enum value. Expected " ++ zEnumUnion options ++
              ", received \x27" ++ s ++ "\x27"⟩], none)
  | some v =>
      ([⟨[key], "Expected " ++ zEnumUnion options ++ ", received " ++
          zTypeNameV v⟩], none)

/-- Validates `z.enum(options)` at a required key. -/
def zReqEnum (fields : List (String × JVal)) (key : String)
    (options : List String) : List ZIssue × String :=
  match getF fields key with
  | none => ([⟨[key], "Required"⟩], "")
  | some (.str s) =>
      if options.contains s then ([], s)
      else ([⟨[key], "Invalid enum value. Expected " ++ zEnumUnion options ++
              ", received \x27" ++ s ++ "\x27"⟩], "")
  | some v =>
      ([⟨[key], "Expected " ++ zEnumUnion options ++ ", received " ++
          zTypeNameV v⟩], "")

/-- Validates `z.number().min(lo).max(hi).default(d)` at a key. -/
def zNumMinMaxDefault (fields : List (String × JVal)) (key : String)
    (lo hi d : Int) : List ZIssue × Int :=
  match getF fields key with
  | none => ([], d)
  | some (.num n) =>
      if n < lo then
        ([⟨[key], "Number must be greater than or equal to " ++ toString lo⟩], n)
      else if n > hi then
        ([⟨[key], "Number must be less than or equal to " ++ toString hi⟩], n)
      else ([], n)
  | some v => ([⟨[key], "Expected number, received " ++ zTypeNameV v⟩], d)

/-- Validates `z.boolean().default(d)` at a key. -/
def zBoolDefault (fields : List (String × JVal)) (key : String) (d : Bool) :
    List ZIssue × Bool :=
  match getF fields key with
  | none => ([], d)
  | some (.bool b) => ([], b)
  | some v => ([⟨[key], "Expected boolean, received " ++ zTypeNameV v⟩], d)

/-- Top-level issue produced when `z.object(...).parse` receives a value
that is not an object. -/
def zNotObjectIssue (args : Option JVal) : List ZIssue :=
  match args with
  | none => [⟨[], "Required"⟩]
  | some v => [⟨[], "Expected object, received " ++ zTypeNameV v⟩]

/-- Validated input of `find_sales_content`
(`src/tools/findSalesContent.ts`). -/
structure FSCInput where
  query : String
  solution : Option String
  segment : Option String
  vertical : Option String
  industry : Option String
  playType : Option String
  competitor : Option String
  limit : Int
  includeRelationships : Bool

/-- The play-type enum of `find_sales_content`, in schema order. -/
def fscPlayTypes : List String :=
  ["DISCOVERY", "DEMO", "OBJECTION_HANDLING", "COMPETITIVE_POSITIONING",
   "VALUE_PROPOSITION", "TECHNICAL_DEEP_DIVE", "CONTENT_DELIVERY", "PROCESS"]

/-- The zod schema of `find_sales_content`, applied to the raw arguments. -/
def validateFSC (args : Option JVal) : Except (List ZIssue) FSCInput :=
  match args with
  | some (.obj fields) =>
      let (i1, query) := zReqStringMin1 fields "query" "Query cannot be empty"
      let (i2, solution) := zOptString fields "solution"
      let (i3, segment) := zOptString fields "segment"
      let (i4, vertical) := zOptString fields "vertical"
      let (i5, industry) := zOptString fields "industry"
      let (i6, playType) := zOptEnum fields "playType" fscPlayTypes
      let (i7, competitor) := zOptString fields "competitor"
      let (i8, limit) := zNumMinMaxDefault fields "limit" 1 50 10
      let (i9, includeRelationships) := zBoolDefault fields "includeRelationships" false
      let issues := i1 ++ i2 ++ i3 ++ i4 ++ i5 ++ i6 ++ i7 ++ i8 ++ i9
      if issues.isEmpty then
        .ok ⟨query, solution, segment, vertical, industry, playType,
             competitor, limit, includeRelationships⟩
      else .error issues
  | other => .error (zNotObjectIssue other)

/-- Validated input of `get_competitive_intel`
(`src/tools/getCompetitiveIntel.ts`). -/
structure GCIInput where
  competitor : String
  solution : Option String
  segment : Option String
  includeExamples : Bool

/-- The zod schema of `get_competitive_intel`. -/
def validateGCI (args : Option JVal) : Except (List ZIssue) GCIInput :=
  match args with
  | some (.obj fields) =>
      let (i1, competitor) := zReqStringMin1 fields "competitor" "Competitor name is required"
      let (i2, solution) := zOptString fields "solution"
      let (i3, segment) := zOptString fields "segment"
      let (i4, includeExamples) := zBoolDefault fields "includeExamples" true
      let issues := i1 ++ i2 ++ i3 ++ i4
      if issues.isEmpty then .ok ⟨competitor, solution, segment, includeExamples⟩
      else .error issues
  | other => .error (zNotObjectIssue other)

/-- Validated input of `find_process_workflows`
(`src/tools/findProcessWorkflows.ts`). -/
structure FPWInput where
  processType : String
  solution : Option String
  includeRoles : Bool
  includeTimelines : Bool

/-- The process-type enum of `find_process_workflows`. -/
def fpwProcessTypes : List String :=
  ["poc", "onboarding", "implementation", "evaluation", "retro", "all"]

/-- The zod schema of `find_process_workflows`. -/
def validateFPW (args : Option JVal) : Except (List ZIssue) FPWInput :=
  match args with
  | some (.obj fields) =>
      let (i1, processType) := zReqEnum fields "processType" fpwProcessTypes
      let (i2, solution) := zOptString fields "solution"
      let (i3, includeRoles) := zBoolDefault fields "includeRoles" true
      let (i4, includeTimelines) := zBoolDefault fields "includeTimelines" true
      let issues := i1 ++ i2 ++ i3 ++ i4
      if issues.isEmpty then .ok ⟨processType, solution, includeRoles, includeTimelines⟩
      else .error issues
  | other => .error (zNotObjectIssue other)

/-- Validated input of `discover_playbooks`
(`src/tools/discoverPlaybooks.ts`). -/
structure DPBInput where
  solution : Option String
  segment : Option String
  vertical : Option String
  industry : Option String
  showGaps : Bool

/-- The zod schema of `discover_playbooks` (all fields optional). -/
def validateDPB (args : Option JVal) : Except (List ZIssue) DPBInput :=
  match args with
  | some (.obj fields) =>
      let (i1, solution) := zOptString fields "solution"
      let (i2, segment) := zOptString fields "segment"
      let (i3, vertical) := zOptString fields "vertical"
      let (i4, industry) := zOptString fields "industry"
      let (i5, showGaps) := zBoolDefault fields "showGaps" true
      let issues := i1 ++ i2 ++ i3 ++ i4 ++ i5
      if issues.isEmpty then .ok ⟨solution, segment, vertical, industry, showGaps⟩
      else .error issues
  | other => .error (zNotObjectIssue other)

/-- Renders zod issues the way every tool's `formatValidationError` does:
one `- path: message` line per issue. -/
def renderIssues (issues : List ZIssue) : String :=
  String.intercalate "\n"
    (issues.map fun i => "- " ++ String.intercalate "." i.path ++ ": " ++ i.message)

/-- `formatValidationError` of `find_sales_content`. -/
def fscValidationText (issues : List ZIssue) : String :=
  "❌ **Invalid Input**\n\n" ++ renderIssues issues ++
    "\n\nPlease check your query parameters and try again."

/-- `formatValidationError` of `get_competitive_intel`. -/
def gciValidationText (issues : List ZIssue) : String :=
  "❌ **Invalid Input**\n\n" ++ renderIssues issues ++
    "\n\nPlease provide a competitor name and try again."

/-- `formatValidationError` of `find_process_workflows`. -/
def fpwValidationText (issues : List ZIssue) : String :=
  "❌ **Invalid Input**\n\n" ++ renderIssues issues ++
    "\n\nValid process types: poc, onboarding, implementation, evaluation, retro, all"

/-- `formatValidationError` of `discover_playbooks`. -/
def dpbValidationText (issues : List ZIssue) : String :=
  "# Invalid Input\n\nPlease check the following:\n\n" ++ renderIssues issues ++
    "\n\n## Optional Parameters\n- **solution**: Solution name filter\n- **segment**: Market segment filter\n- **vertical**: Vertical market filter\n- **industry**: Industry filter\n- **showGaps**: Include gap analysis (default: true)"

/-- `formatMissingFiltersError` of `discover_playbooks` (returned when no
filter at all is supplied). -/
def dpbMissingFiltersText : String :=
  "# Missing Search Criteria\n\nPlease provide at least one filter to discover playbooks:\n\n- **solution**: Filter by solution name\n- **segment**: Filter by market segment\n- **vertical**: Filter by vertical market\n- **industry**: Filter by industry focus\n\n## Example Usage\n\n```json\n\x7b\n  \"solution\": \"Account Verification\",\n  \"segment\": \"Enterprise\",\n  \"showGaps\": true\n\x7d\n```"

/-- The parsed request envelope, as the TypeScript `MCPMessage` interface
declares it: `method: string; params?: any; id?: number | string`. -/
structure MCPMessage where
  method : String
  params : Option JVal := none
  id : Option RpcId := none

/-- A JSON-RPC error object `{code, message}`. -/
structure RpcError where
  code : Int
  message : String
deriving DecidableEq

/-- The response envelope (`MCPResponse`): `jsonrpc`, optional `result`,
optional `error`, optional `id`; a `none` field is omitted from the
serialized line (`JSON.stringify` drops `undefined`). -/
structure MCPResponse where
  jsonrpc : String := "2.0"
  result : Option JVal := none
  error : Option RpcError := none
  id : Option RpcId := none

/-- Outcome of one awaited `apiClient.request(endpoint, body)` call: the
promise resolves with parsed JSON or rejects with an error message. -/
inductive ApiOutcome where
  | resolve (v : JVal)
  | reject (msg : String)

/-- Outcome of one awaited tool handler call: a returned text, or a thrown
error carrying a message. -/
inductive HandlerOutcome where
  | ok (text : String)
  | raise (msg : String)

/-- The environment a run of the server is embedded in.  `client` is the
optional configured `ApiClient` (its behaviour on each call); `jsonParse`
models `JSON.parse`; `parseLine` models parsing one stdin line into the
`MCPMessage` shape (`none` = `JSON.parse` threw).  The remaining fields are
the markdown formatting functions and the demo dataset, which spec
section 1 excludes from the core as deterministic string templating /
static data (the `discover_playbooks` demo module `data/demoData` is not
part of the core sources); they never influence control flow. -/
structure Env where
  client : Option (String → JVal → ApiOutcome)
  jsonParse : String → Except String JVal
  parseLine : String → Option MCPMessage
  fscSearchResults : JVal → FSCInput → String
  fscNoResults : FSCInput → String
  gciFormat : JVal → GCIInput → String
  fpwFormat : JVal → FPWInput → String
  dpbSearch : DPBInput → List JVal
  dpbNoPlaybooks : DPBInput → String
  dpbResults : List JVal → DPBInput → String

/-- Optional string field of a serialized request body. -/
def optStrField (k : String) : Option String → List (String × JVal)
  | some s => [(k, .str s)]
  | none => []

/-- The validated `find_sales_content` input as the JSON body sent to the
API (zod output: defaults filled in, absent optionals omitted). -/
def fscEncode (i : FSCInput) : JVal :=
  .obj ([("query", .str i.query)] ++ optStrField "solution" i.solution ++
    optStrField "segment" i.segment ++ optStrField "vertical" i.vertical ++
    optStrField "industry" i.industry ++ optStrField "playType" i.playType ++
    optStrField "competitor" i.competitor ++
    [("limit", .num i.limit), ("includeRelationships", .bool i.includeRelationships)])

/-- The validated `get_competitive_intel` input as a JSON body. -/
def gciEncode (i : GCIInput) : JVal :=
  .obj ([("competitor", .str i.competitor)] ++ optStrField "solution" i.solution ++
    optStrField "segment" i.segment ++ [("includeExamples", .bool i.includeExamples)])

/-- The validated `find_process_workflows` input as a JSON body. -/
def fpwEncode (i : FPWInput) : JVal :=
  .obj ([("processType", .str i.processType)] ++ optStrField "solution" i.solution ++
    [("includeRoles", .bool i.includeRoles), ("includeTimelines", .bool i.includeTimelines)])

/-- Evaluates `response.content[0].text` with JavaScript semantics,
returning the thrown TypeError message when an access fails, and coercing
the final value to the string handed to `JSON.parse`. -/
def jsContentFirstText (v : JVal) : Except String String :=
  match v with
  | .null => .error (cannotReadNull "content")
  | _ =>
    match jsGetProp v "content" with
    | none => .error (cannotReadOfMissing "0")
    | some .null => .error (cannotReadNull "0")
    | some c =>
      match jsIndex0 c with
      | none => .error (cannotReadOfMissing "text")
      | some .null => .error (cannotReadNull "text")
      | some e => .ok (jsToStr (jsGetProp e "text"))

/-- Handler of `find_sales_content` (`src/tools/findSalesContent.ts`):
validate with zod (failures become a returned validation text), call
`apiClient.request('/find_sales_content', input)`, `JSON.parse` the first
content text, check `apiData.success`, and branch on empty results; every
caught non-zod error is re-thrown as `Search failed: ...`.  A `null`
`apiClient` makes the `.request` access itself throw. -/
def fscRun (env : Env) (args : Option JVal) : HandlerOutcome :=
  match validateFSC args with
  | .error issues => .ok (fscValidationText issues)
  | .ok input =>
    match env.client with
    | none => .raise ("Search failed: " ++ cannotReadNull "request")
    | some call =>
      match call "/find_sales_content" (fscEncode input) with
      | .reject m => .raise ("Search failed: " ++ m)
      | .resolve v =>
        match jsContentFirstText v with
        | .error m => .raise ("Search failed: " ++ m)
        | .ok rawText =>
          match env.jsonParse rawText with
          | .error m => .raise ("Search failed: " ++ m)
          | .ok apiData =>
            match apiData with
            | .null => .raise ("Search failed: " ++ cannotReadNull "success")
            | _ =>
              if jsTruthy (jsGetProp apiData "success") = false then
                .raise ("Search failed: " ++
                  jsStrOrDefault (jsGetProp apiData "error") "Search failed")
              else
                match jsGetProp apiData "data" with
                | none => .raise ("Search failed: " ++ cannotReadOfMissing "results")
                | some .null => .raise ("Search failed: " ++ cannotReadNull "results")
                | some data =>
                  let results := jsGetProp data "results"
                  let plays := jsOrEmptyArr (jsOptChain results "plays")
                  let playbooks := jsOrEmptyArr (jsOptChain results "playbooks")
                  if jsLenEqZero plays && jsLenEqZero playbooks then
                    .ok (env.fscNoResults input)
                  else .ok (env.fscSearchResults data input)

/-- The catch block of `get_competitive_intel` for non-zod errors: when the
message mentions `No competitive intelligence found` the catch block
references the try-scoped `input` binding, which is not in scope there, so
a ReferenceError escapes instead; otherwise the error is re-thrown wrapped
as a lookup failure. -/
def gciCatch (m : String) : HandlerOutcome :=
  if strHas m "No competitive intelligence found" then
    .raise "input is not defined"
  else .raise ("Competitive intelligence lookup failed: " ++ m)

/-- Handler of `get_competitive_intel` (`src/tools/getCompetitiveIntel.ts`). -/
def gciRun (env : Env) (args : Option JVal) : HandlerOutcome :=
  match validateGCI args with
  | .error issues => .ok (gciValidationText issues)
  | .ok input =>
    match env.client with
    | none => gciCatch (cannotReadNull "request")
    | some call =>
      match call "/get_competitive_intel" (gciEncode input) with
      | .reject m => gciCatch m
      | .resolve v =>
        match jsContentFirstText v with
        | .error m => gciCatch m
        | .ok rawText =>
          match env.jsonParse rawText with
          | .error m => gciCatch m
          | .ok d => .ok (env.gciFormat d input)

/-- Handler of `find_process_workflows` (`src/tools/findProcessWorkflows.ts`). -/
def fpwRun (env : Env) (args : Option JVal) : HandlerOutcome :=
  match validateFPW args with
  | .error issues => .ok (fpwValidationText issues)
  | .ok input =>
    match env.client with
    | none => .raise ("Process workflow search failed: " ++ cannotReadNull "request")
    | some call =>
      match call "/find_process_workflows" (fpwEncode input) with
      | .reject m => .raise ("Process workflow search failed: " ++ m)
      | .resolve v =>
        match jsContentFirstText v with
        | .error m => .raise ("Process workflow search failed: " ++ m)
        | .ok rawText =>
          match env.jsonParse rawText with
          | .error m => .raise ("Process workflow search failed: " ++ m)
          | .ok d => .ok (env.fpwFormat d input)

/-- JavaScript falsiness of an optional-string filter (`!input.solution`:
both absence and the empty string are falsy). -/
def strFalsyOpt : Option String → Bool
  | none => true
  | some s => s == ""

/-- Handler of `discover_playbooks` (`src/tools/discoverPlaybooks.ts`, the
demo-data variant registered in `src/tools/index.ts`): requires at least
one truthy filter, then searches the static demo dataset. -/
def dpbRun (env : Env) (args : Option JVal) : HandlerOutcome :=
  match validateDPB args with
  | .error issues => .ok (dpbValidationText issues)
  | .ok input =>
    if strFalsyOpt input.solution && strFalsyOpt input.segment &&
        strFalsyOpt input.vertical && strFalsyOpt input.industry then
      .ok dpbMissingFiltersText
    else
      let pbs := env.dpbSearch input
      if pbs.isEmpty then .ok (env.dpbNoPlaybooks input)
      else .ok (env.dpbResults pbs input)

/-- The JSON input schema literal of `find_sales_content`. -/
def fscInputSchema : JVal :=
  .obj [("type", .str "object"),
    ("properties", .obj [
      ("query", .obj [("type", .str "string"),
        ("description", .str "Natural language search query (e.g., \"account verification banking\", \"fraud prevention demo\", \"competitive positioning against EWS\")")]),
      ("solution", .obj [("type", .str "string"),
        ("description", .str "Filter by solution name (e.g., \"Account Verification\", \"Fraud Prevention\")")]),
      ("segment", .obj [("type", .str "string"),
        ("description", .str "Filter by market segment (e.g., \"Enterprise\", \"SMB\", \"Banking\")")]),
      ("vertical", .obj [("type", .str "string"),
        ("description", .str "Filter by industry vertical (e.g., \"Banking\", \"Fintech\", \"Wealth Management\")")]),
      ("industry", .obj [("type", .str "string"),
        ("description", .str "Filter by specific industry (e.g., \"Community Banks\", \"Regional Banks\")")]),
      ("playType", .obj [("type", .str "string"),
        ("enum", .arr (fscPlayTypes.map .str)),
        ("description", .str "Filter by play type including Process workflows for POCs, onboarding, etc.")]),
      ("competitor", .obj [("type", .str "string"),
        ("description", .str "Filter by competitor mentions (e.g., \"Early Warning System\", \"EWS\", \"Stripe\")")]),
      ("limit", .obj [("type", .str "number"), ("minimum", .num 1),
        ("maximum", .num 50), ("default", .num 10),
        ("description", .str "Maximum number of results to return (1-50, default: 10)")]),
      ("includeRelationships", .obj [("type", .str "boolean"), ("default", .bool false),
        ("description", .str "Include related content and supporting materials")])]),
    ("required", .arr [.str "query"]),
    ("additionalProperties", .bool false)]

/-- The JSON input schema literal of `get_competitive_intel`. -/
def gciInputSchema : JVal :=
  .obj [("type", .str "object"),
    ("properties", .obj [
      ("competitor", .obj [("type", .str "string"),
        ("description", .str "Competitor name (e.g., \"Early Warning System\", \"EWS\", \"Stripe\", \"Zelle\", \"Plaid\")")]),
      ("solution", .obj [("type", .str "string"),
        ("description", .str "Filter by solution context (e.g., \"Account Verification\", \"Payment Processing\")")]),
      ("segment", .obj [("type", .str "string"),
        ("description", .str "Filter by market segment (e.g., \"Enterprise\", \"Banking\", \"Fintech\")")]),
      ("includeExamples", .obj [("type", .str "boolean"), ("default", .bool true),
        ("description", .str "Include real examples from sales calls and content")])]),
    ("required", .arr [.str "competitor"]),
    ("additionalProperties", .bool false)]

/-- The JSON input schema literal of `find_process_workflows`. -/
def fpwInputSchema : JVal :=
  .obj [("type", .str "object"),
    ("properties", .obj [
      ("processType", .obj [("type", .str "string"),
        ("enum", .arr ((["poc", "onboarding", "implementation", "evaluation", "retro", "all"] : List String).map .str)),
        ("description", .str "Type of process workflow: poc (Proof of Concept), onboarding (Client Onboarding), implementation (System Implementation), evaluation (Assessment Process), retro (Retrospective Analysis), all (All Types)")]),
      ("solution", .obj [("type", .str "string"),
        ("description", .str "Filter by solution context (e.g., \"Account Verification\", \"Fraud Prevention\")")]),
      ("includeRoles", .obj [("type", .str "boolean"), ("default", .bool true),
        ("description", .str "Include role assignments and ownership information")]),
      ("includeTimelines", .obj [("type", .str "boolean"), ("default", .bool true),
        ("description", .str "Include timeline and checkpoint information")])]),
    ("required", .arr [.str "processType"]),
    ("additionalProperties", .bool false)]

/-- The JSON input schema literal of `discover_playbooks` (the registered
demo-data variant; it declares no `required` list). -/
def dpbInputSchema : JVal :=
  .obj [("type", .str "object"),
    ("properties", .obj [
      ("solution", .obj [("type", .str "string"),
        ("description", .str "Filter by solution (e.g., Account Verification, Fraud Prevention, Payment Processing)")]),
      ("segment", .obj [("type", .str "string"),
        ("description", .str "Filter by market segment (Enterprise, Mid-Market, SMB)")]),
      ("vertical", .obj [("type", .str "string"),
        ("description", .str "Filter by vertical market (e.g., Banking, Fintech, Insurance)")]),
      ("industry", .obj [("type", .str "string"),
        ("description", .str "Filter by industry focus")]),
      ("showGaps", .obj [("type", .str "boolean"),
        ("description", .str "Include gap analysis showing missing play types"),
        ("default", .bool true)])])]

/-- A registered tool descriptor, as the `MCPTool` interface of
`src/tools/index.ts` declares it (the handler is `run`). -/
structure MCPTool where
  name : String
  description : String
  inputSchema : JVal
  run : Env → Option JVal → HandlerOutcome

/-- `findSalesContentTool`. -/
def findSalesContentTool : MCPTool :=
  { name := "find_sales_content"
    description := "Search for playbooks, plays, and sales content using natural language queries. Supports filtering by solution, market segment, play type, and more."
    inputSchema := fscInputSchema
    run := fscRun }

/-- `getCompetitiveIntelTool`. -/
def getCompetitiveIntelTool : MCPTool :=
  { name := "get_competitive_intel"
    description := "Get competitive intelligence, talking points, and positioning strategies against specific competitors. Includes real examples from sales calls and battle cards."
    inputSchema := gciInputSchema
    run := gciRun }

/-- `findProcessWorkflowsTool`. -/
def findProcessWorkflowsTool : MCPTool :=
  { name := "find_process_workflows"
    description := "Search for process workflows, POC procedures, implementation guides, and step-by-step processes. Includes role assignments, timelines, and checkpoints."
    inputSchema := fpwInputSchema
    run := fpwRun }

/-- `discoverPlaybooksTool` (the variant registered by `src/tools/index.ts`). -/
def discoverPlaybooksTool : MCPTool :=
  { name := "discover_playbooks"
    description := "Discover available playbooks and analyze content gaps. Filter by solution, segment, vertical, or industry to find relevant playbooks."
    inputSchema := dpbInputSchema
    run := dpbRun }

/-- The registry of `src/tools/index.ts`, in insertion order. -/
def mcpTools : List MCPTool :=
  [findSalesContentTool, getCompetitiveIntelTool, findProcessWorkflowsTool,
   discoverPlaybooksTool]

/-- `Object.keys(tools)`. -/
def registeredToolNames : List String := mcpTools.map (·.name)

/-- `Object.keys(tools).join(', ')`. -/
def availableToolNames : String := String.intercalate ", " registeredToolNames

/-- `sendError(id, code, message)`: builds the error envelope with
`id: id ?? undefined`. -/
def errorResponse (id : Option RpcId) (code : Int) (message : String) :
    MCPResponse :=
  { error := some ⟨code, message⟩, id := id }

/-- The `tools/call` success envelope
`{content: [{type: 'text', text}]}`. -/
def successToolResponse (id : Option RpcId) (text : String) : MCPResponse :=
  { result := some (.obj [("content",
      .arr [.obj [("type", .str "text"), ("text", .str text)]])]),
    id := id }

/-- The fixed `initialize` result object. -/
def initializeResult : JVal :=
  .obj [("protocolVersion", .str "2024-11-05"),
    ("capabilities", .obj [("tools", .obj [])]),
    ("serverInfo", .obj [("name", .str "sales-intelligence-mcp"),
      ("version", .str "1.0.0")])]

/-- The `tools/list` result: name, description and inputSchema of every
registered tool, in registration order (handlers are never serialized). -/
def toolsListResult : JVal :=
  .obj [("tools", .arr (mcpTools.map fun t =>
    .obj [("name", .str t.name), ("description", .str t.description),
      ("inputSchema", t.inputSchema)]))]

/-- TypeError message for destructuring `undefined` `message.params`. -/
def destructUndefMsg : String :=
  "Cannot destructure property \x27name\x27 of \x27message.params\x27 as it is undefined."

/-- TypeError message for destructuring `null` `message.params`. -/
def destructNullMsg : String :=
  "Cannot destructure property \x27name\x27 of \x27message.params\x27 as it is null."

/-- Property names every plain JavaScript object literal inherits from
`Object.prototype` (the registry `tools` is an object literal, so
`tools[name]` follows the prototype chain).  Each of the inherited values
(a function, or `Object.prototype` itself for `__proto__`) is truthy. -/
def objectProtoKeys : List String :=
  ["constructor", "hasOwnProperty", "isPrototypeOf", "propertyIsEnumerable",
   "toLocaleString", "toString", "valueOf", "__defineGetter__",
   "__defineSetter__", "__lookupGetter__", "__lookupSetter__", "__proto__"]

/-- The TypeError message thrown when `tools[name]` resolved to a truthy
value inherited from `Object.prototype` and `tool.handler(...)` is then
called on it (`handler` is `undefined` there). -/
def handlerNotFunctionMsg : String := "tool.handler is not a function"

/-- `handleToolCall`: destructure `{name, arguments}` from `params`
(throwing — the `.error` case — when `params` is absent or `null`), look
the coerced name up with JavaScript property semantics — an own key of the
registry object finds the tool; a key inherited from `Object.prototype`
yields a truthy non-tool value, so `!tool` does not fire and calling
`tool.handler` throws inside the local try/catch, producing a `-32603`
execution-failure response — and run the tool inside that try/catch, which
turns thrown handler errors into `-32603` responses.  Names found nowhere
on the prototype chain get the `-32602` enumeration response. -/
def handleToolCallE (env : Env) (id : Option RpcId) (params : Option JVal) :
    Except String MCPResponse :=
  match params with
  | none => .error destructUndefMsg
  | some .null => .error destructNullMsg
  | some p =>
    match mcpTools.find? (fun t => t.name == jsToStr (jsGetProp p "name")) with
    | none =>
      if jsToStr (jsGetProp p "name") ∈ objectProtoKeys then
        .ok (errorResponse id (-32603)
          ("Tool execution failed: " ++ handlerNotFunctionMsg))
      else
        .ok (errorResponse id (-32602)
          ("Tool \"" ++ jsToStr (jsGetProp p "name") ++ "\" not found. Available tools: " ++
            availableToolNames))
    | some t =>
      match t.run env (jsGetProp p "arguments") with
      | .ok text => .ok (successToolResponse id text)
      | .raise m => .ok (errorResponse id (-32603) ("Tool execution failed: " ++ m))

/-- `handleMessage`: the method dispatch, wrapped in the try/catch that
turns any uncaught dispatch exception into a `-32603` internal error
response.  The returned list is the sequence of lines written to stdout for
this message. -/
def handleMessage (env : Env) (msg : MCPMessage) : List MCPResponse :=
  if msg.method == "initialize" then
    [{ result := some initializeResult, id := msg.id }]
  else if msg.method == "tools/list" then
    [{ result := some toolsListResult, id := msg.id }]
  else if msg.method == "tools/call" then
    match handleToolCallE env msg.id msg.params with
    | .ok r => [r]
    | .error m => [errorResponse msg.id (-32603) ("Internal error: " ++ m)]
  else
    [errorResponse msg.id (-32601) ("Method not found: " ++ msg.method)]

/-- The `-32700` response sent when a line fails to parse
(`sendError(null, -32700, 'Parse error')`). -/
def parseErrorResponse : MCPResponse := errorResponse none (-32700) "Parse error"

/-- The `line` event handler: `JSON.parse(line.trim())` inside try/catch. -/
def processLine (env : Env) (line : String) : List MCPResponse :=
  match env.parseLine (jsTrim line) with
  | none => [parseErrorResponse]
  | some msg => handleMessage env msg

/-- The read loop over the input stream: each line is processed fully, in
order; no line ever terminates the loop. -/
def processLines (env : Env) : List String → List MCPResponse
  | [] => []
  | l :: ls => processLine env l ++ processLines env ls

/-- `ApiClientConfig` of `src/auth/apiClient.ts`. -/
structure ApiClientConfig where
  baseUrl : String
  apiKey : String
  timeout : Int

/-- URL composition of the client the server imports
(`src/auth/apiClient.ts`): plain concatenation. -/
def requestUrl (baseUrl endpoint : String) : String := baseUrl ++ endpoint

/-- URL composition of the duplicated client variant found in the
repository, which inserts the fixed `/api/mcp` prefix between base URL and
endpoint. -/
def requestUrlVariant (baseUrl endpoint : String) : String :=
  baseUrl ++ "/api/mcp" ++ endpoint

/-- The `Authorization` header of `src/auth/apiClient.ts`: pass a
credential through unchanged when it already starts with `Bearer ` or
`MCP-Key `, otherwise prepend `Bearer `. -/
def authorizationHeader (apiKey : String) : String :=
  if jsStartsWith apiKey "Bearer " || jsStartsWith apiKey "MCP-Key " then apiKey
  else "Bearer " ++ apiKey

/-- The error message thrown when a success-status body is HTML. -/
def htmlErrorMessage (url : String) : String :=
  "API returned HTML instead of JSON. This usually means: 1) The endpoint doesn\x27t exist, 2) Authentication failed, or 3) Server is redirecting to frontend. URL: " ++ url

/-- How `ApiClient.request` treats the raw body of a success-status
response: HTML markers and non-JSON content types are rejected before any
parse; the `loggedPreview` component is the 200-character
`text.substring(0, 200)` preview written to the diagnostic logger at the
point of classification. -/
inductive BodyStep where
  | htmlRejected (errMsg : String) (loggedPreview : String)
  | contentTypeRejected (errMsg : String) (loggedPreview : String)
  | parseAttempted (text : String)

/-- The body classification of `src/auth/apiClient.ts` (lines 48-76). -/
def classifyBody (url contentType text : String) : BodyStep :=
  if jsStartsWith (jsTrim text) "<!DOCTYPE" || jsStartsWith (jsTrim text) "<html" then
    .htmlRejected (htmlErrorMessage url) (jsTake text 200)
  else if strHas contentType "application/json" = false then
    .contentTypeRejected ("API returned " ++ contentType ++
        " instead of JSON. Response preview: " ++ jsTake text 200)
      (jsTake text 200)
  else .parseAttempted text

/-- An HTTP response as `fetch` presents it to `ApiClient.request`:
`ok`, `status`, the `retry-after` and `content-type` headers, and the raw
body text. -/
structure HttpResponse where
  ok : Bool
  status : Int
  retryAfter : Option String
  contentType : Option String
  body : String

/-- `ApiClient.request` of `src/auth/apiClient.ts`, for a call that
received an HTTP response: status-code classification of non-success
responses, then body classification, then (only on the parse-attempted
branch) `JSON.parse`, supplied as the `parse` argument. -/
def requestModel (cfg : ApiClientConfig) (endpoint : String)
    (resp : HttpResponse) (parse : String → Except String JVal) :
    Except String JVal :=
  let url := requestUrl cfg.baseUrl endpoint
  if resp.ok = false then
    if resp.status == 401 then
      .error "Authentication failed. Please check your API key"
    else if resp.status == 429 then
      .error ("Rate limit exceeded. Please wait " ++ jsOrStr resp.retryAfter "60" ++ " seconds")
    else .error ("API request failed (" ++ toString resp.status ++ ")")
  else
    match classifyBody url (jsOrStr resp.contentType "") resp.body with
    | .htmlRejected m _ => .error m
    | .contentTypeRejected m _ => .error m
    | .parseAttempted t =>
      match parse t with
      | .ok v => .ok v
      | .error pm => .error ("Failed to parse JSON response: " ++ pm ++
          ". Response preview: " ++ jsTake t 200)

/-- `params` object of a canonical `tools/call` request. -/
def mkToolCallParams (name : String) (args : Option JVal) : JVal :=
  .obj (("name", .str name) ::
    (match args with
     | some a => [("arguments", a)]
     | none => []))

/-- A canonical `tools/call` request message. -/
def mkToolCallMsg (name : String) (args : Option JVal) (id : Option RpcId) :
    MCPMessage :=
  { method := "tools/call", params := some (mkToolCallParams name args), id := id }

/-- The demo-mode environment: no API client configured, every
environment-supplied collaborator instantiated trivially (none of them is
reachable on the paths the concrete theorems evaluate). -/
def demoEnv : Env :=
  { client := none
    jsonParse := fun _ => .error "Unexpected end of JSON input"
    parseLine := fun _ => none
    fscSearchResults := fun _ _ => ""
    fscNoResults := fun _ => ""
    gciFormat := fun _ _ => ""
    fpwFormat := fun _ _ => ""
    dpbSearch := fun _ => []
    dpbNoPlaybooks := fun _ => ""
    dpbResults := fun _ _ => "" }

/-- Environment whose input stream parses every line as a `tools/call`
with absent `params` and id 7 (used to exercise the destructuring path). -/
def envParamsAbsent : Env :=
  { demoEnv with parseLine :=
      fun _ => some ⟨"tools/call", none, some (RpcId.num 7)⟩ }

/-- Environment whose input stream parses every line as a `tools/call`
with `params: null` and id 7. -/
def envParamsNull : Env :=
  { demoEnv with parseLine :=
      fun _ => some ⟨"tools/call", some JVal.null, some (RpcId.num 7)⟩ }

lemma handleToolCallE_ok_shape (env : Env) (id : Option RpcId)
    (params : Option JVal) (r : MCPResponse)
    (h : handleToolCallE env id params = .ok r) :
    r.id = id ∧
      ((r.result.isSome = true ∧ r.error = none) ∨
       (r.result = none ∧ r.error.isSome = true)) := by
  unfold handleToolCallE at h
  split at h
  · exact absurd h (by simp)
  · exact absurd h (by simp)
  · split at h
    · split at h
      · cases h
        simp [errorResponse]
      · cases h
        simp [errorResponse]
    · split at h
      · cases h
        simp [successToolResponse]
      · cases h
        simp [errorResponse]

lemma handleMessage_one (env : Env) (msg : MCPMessage) :
    ∃ r, handleMessage env msg = [r] ∧ r.id = msg.id ∧
      ((r.result.isSome = true ∧ r.error = none) ∨
       (r.result = none ∧ r.error.isSome = true)) := by
  unfold handleMessage
  split
  · exact ⟨_, rfl, rfl, Or.inl (by simp)⟩
  · split
    · exact ⟨_, rfl, rfl, Or.inl (by simp)⟩
    · split
      · rcases hE : handleToolCallE env msg.id msg.params with m | r
        · simp only [hE]
          exact ⟨_, rfl, rfl, Or.inr (by simp [errorResponse])⟩
        · simp only [hE]
          obtain ⟨h1, h2⟩ := handleToolCallE_ok_shape env msg.id msg.params r hE
          exact ⟨r, rfl, h1, h2⟩
      · exact ⟨_, rfl, rfl, Or.inr (by simp [errorResponse])⟩

/-- C5: a credential already starting with a recognized scheme token
(`Bearer ` or `MCP-Key `) is used as the `Authorization` header unchanged;
any other credential is prefixed with the default scheme `Bearer `. -/
theorem spec_c5 (apiKey : String) :
    ((jsStartsWith apiKey "Bearer " || jsStartsWith apiKey "MCP-Key ") = true →
      authorizationHeader apiKey = apiKey) ∧
    ((jsStartsWith apiKey "Bearer " || jsStartsWith apiKey "MCP-Key ") = false →
      authorizationHeader apiKey = "Bearer " ++ apiKey) := by
  constructor <;> intro h <;> simp [authorizationHeader, h]

/-- Witness for C5 at concrete credentials. -/
theorem spec_c5_witness :
    authorizationHeader "Bearer abc123" = "Bearer abc123" ∧
    authorizationHeader "MCP-Key abc123" = "MCP-Key abc123" ∧
    authorizationHeader "abc123" = "Bearer " ++ "abc123" :=
  ⟨(spec_c5 "Bearer abc123").1 (by decide),
   (spec_c5 "MCP-Key abc123").1 (by decide),
   (spec_c5 "abc123").2 (by decide)⟩

/-- C8 (amended): the client the server imports composes the URL as the
verbatim character-level concatenation of base URL and endpoint, inserting
and removing nothing; the duplicated client variant instead inserts the
fixed `/api/mcp` prefix between them. -/
theorem spec_c8 (baseUrl endpoint : String) :
    requestUrl baseUrl endpoint = baseUrl ++ endpoint ∧
    (requestUrl baseUrl endpoint).data = baseUrl.data ++ endpoint.data ∧
    requestUrlVariant baseUrl endpoint = baseUrl ++ "/api/mcp" ++ endpoint :=
  ⟨rfl, rfl, rfl⟩

/-- Counterexample for C8 as stated: the duplicated client variant does not
compose by exact concatenation — it inserts a path prefix (and even
duplicates the segment when the base URL already carries it). -/
theorem spec_c8_counterexample :
    requestUrlVariant "https://host" "/find_sales_content" ≠
      "https://host" ++ "/find_sales_content" ∧
    requestUrlVariant "https://host/api/mcp" "/x" =
      "https://host/api/mcp/api/mcp/x" := by
  constructor
  · decide
  · rfl

/-- C4 (amended): a success-status response whose trimmed body starts with
an HTML document marker makes `ApiClient.request` fail with the
HTML-specific malformed-response error (which names the URL; the
200-character body preview goes to the diagnostic log, not into the error
message), and `JSON.parse` is never attempted on that body — the outcome
is identical for every possible parser. -/
theorem spec_c4 (cfg : ApiClientConfig) (endpoint : String)
    (resp : HttpResponse) (p₁ p₂ : String → Except String JVal)
    (hok : resp.ok = true)
    (hhtml : (jsStartsWith (jsTrim resp.body) "<!DOCTYPE" ||
              jsStartsWith (jsTrim resp.body) "<html") = true) :
    requestModel cfg endpoint resp p₁ =
      .error (htmlErrorMessage (requestUrl cfg.baseUrl endpoint)) ∧
    requestModel cfg endpoint resp p₁ = requestModel cfg endpoint resp p₂ ∧
    classifyBody (requestUrl cfg.baseUrl endpoint)
        (jsOrStr resp.contentType "") resp.body =
      .htmlRejected (htmlErrorMessage (requestUrl cfg.baseUrl endpoint))
        (jsTake resp.body 200) := by
  unfold requestModel classifyBody
  simp [hok, hhtml]

/-- Witness for C4 at a concrete HTML response. -/
theorem spec_c4_witness :
    requestModel ⟨"https://api.example.com", "key", 10000⟩
        "/find_sales_content"
        ⟨true, 200, none, some "text/html", "<html>ZQX"⟩
        (fun _ => .error "never reached") =
      .error (htmlErrorMessage
        (requestUrl "https://api.example.com" "/find_sales_content")) ∧
    requestModel ⟨"https://api.example.com", "key", 10000⟩
        "/find_sales_content"
        ⟨true, 200, none, some "text/html", "<html>ZQX"⟩
        (fun _ => .error "never reached") =
      requestModel ⟨"https://api.example.com", "key", 10000⟩
        "/find_sales_content"
        ⟨true, 200, none, some "text/html", "<html>ZQX"⟩
        (fun _ => .ok .null) ∧
    classifyBody (requestUrl "https://api.example.com" "/find_sales_content")
        (jsOrStr (some "text/html") "") "<html>ZQX" =
      .htmlRejected (htmlErrorMessage
          (requestUrl "https://api.example.com" "/find_sales_content"))
        (jsTake "<html>ZQX" 200) :=
  spec_c4 ⟨"https://api.example.com", "key", 10000⟩ "/find_sales_content"
    ⟨true, 200, none, some "text/html", "<html>ZQX"⟩
    (fun _ => .error "never reached") (fun _ => .ok .null) rfl (by decide)

/-- Counterexample for C4 as stated: at a concrete HTML body the thrown
error message does not carry the body preview — the preview appears only
in the logged classification. -/
theorem spec_c4_counterexample :
    requestModel ⟨"https://api.example.com", "key", 10000⟩
        "/find_sales_content"
        ⟨true, 200, none, some "text/html", "<html>ZQX"⟩
        (fun _ => .ok .null) =
      .error (htmlErrorMessage "https://api.example.com/find_sales_content") ∧
    jsTake "<html>ZQX" 200 = "<html>ZQX" ∧
    strHas (htmlErrorMessage "https://api.example.com/find_sales_content")
        "<html>ZQX" = false := by
  refine ⟨rfl, rfl, ?_⟩
  decide

/-- C3: a line failing to parse as JSON produces exactly one `-32700`
response with no `id` and no `result`, and the loop goes on to process the
remaining lines exactly as before. -/
theorem spec_c3 (env : Env) (line : String) (rest : List String)
    (h : env.parseLine (jsTrim line) = none) :
    processLines env (line :: rest) =
      parseErrorResponse :: processLines env rest ∧
    parseErrorResponse.error = some ⟨-32700, "Parse error"⟩ ∧
    parseErrorResponse.id = none ∧ parseErrorResponse.result = none := by
  refine ⟨?_, rfl, rfl, rfl⟩
  simp [processLines, processLine, h]

/-- Witness for C3: in the demo environment no line parses, so a bad line
is answered with one parse error and the next line is still processed. -/
theorem spec_c3_witness :
    processLines demoEnv ["this is not json", "second line"] =
      parseErrorResponse ::
        processLines demoEnv ["second line"] ∧
    parseErrorResponse.error = some ⟨-32700, "Parse error"⟩ ∧
    parseErrorResponse.id = none ∧ parseErrorResponse.result = none :=
  spec_c3 demoEnv "this is not json" ["second line"] rfl

/-- C1: every request carrying an id receives exactly one response, it
echoes the same id, and it holds exactly one of `result`/`error` — never
both, never neither. -/
theorem spec_c1 (env : Env) (msg : MCPMessage) (i : RpcId)
    (h : msg.id = some i) :
    ∃ r, handleMessage env msg = [r] ∧ r.id = some i ∧
      ((r.result.isSome = true ∧ r.error = none) ∨
       (r.result = none ∧ r.error.isSome = true)) := by
  obtain ⟨r, h1, h2, h3⟩ := handleMessage_one env msg
  exact ⟨r, h1, h ▸ h2, h3⟩

/-- Witness for C1 at a concrete `initialize` request with id 1. -/
theorem spec_c1_witness :
    ∃ r, handleMessage demoEnv ⟨"initialize", none, some (.num 1)⟩ = [r] ∧
      r.id = some (.num 1) ∧
      ((r.result.isSome = true ∧ r.error = none) ∨
       (r.result = none ∧ r.error.isSome = true)) :=
  spec_c1 demoEnv ⟨"initialize", none, some (.num 1)⟩ (.num 1) rfl

/-- C6 (amended): a parseable request without an id still receives exactly
one response — the server implements no notification semantics — and that
response's id field is absent. -/
theorem spec_c6 (env : Env) (msg : MCPMessage) (h : msg.id = none) :
    ∃ r, handleMessage env msg = [r] ∧ r.id = none ∧
      ((r.result.isSome = true ∧ r.error = none) ∨
       (r.result = none ∧ r.error.isSome = true)) := by
  obtain ⟨r, h1, h2, h3⟩ := handleMessage_one env msg
  exact ⟨r, h1, h ▸ h2, h3⟩

/-- Counterexample for C6 as stated: an id-less `initialize` request is
answered (with the full initialize result), so the output stream is not
empty. -/
theorem spec_c6_counterexample :
    handleMessage demoEnv ⟨"initialize", none, none⟩ =
      [{ result := some initializeResult, id := none }] ∧
    handleMessage demoEnv ⟨"initialize", none, none⟩ ≠ [] := by
  have h1 : handleMessage demoEnv ⟨"initialize", none, none⟩ =
      [{ result := some initializeResult, id := none }] := rfl
  refine ⟨h1, ?_⟩
  rw [h1]
  simp

/-- Witness for C6 (amended) at a concrete id-less `tools/list` request. -/
theorem spec_c6_witness :
    ∃ r, handleMessage demoEnv ⟨"tools/list", none, none⟩ = [r] ∧
      r.id = none ∧
      ((r.result.isSome = true ∧ r.error = none) ∨
       (r.result = none ∧ r.error.isSome = true)) :=
  spec_c6 demoEnv ⟨"tools/list", none, none⟩ rfl

lemma find_none_of_not_mem (name : String)
    (hnot : name ∉ registeredToolNames) :
    mcpTools.find? (fun t => t.name == name) = none := by
  rw [List.find?_eq_none]
  intro t ht
  simp only [beq_iff_eq]
  intro hEq
  exact hnot (by rw [← hEq]; exact List.mem_map_of_mem (·.name) ht)

/-- C2 (amended): a `tools/call` naming an unregistered tool that is also
not a property name inherited from `Object.prototype` is answered with a
single error response of code `-32602` whose message enumerates all
currently registered tool names; an unregistered name that the registry
lookup `tools[name]` finds on the prototype chain (such as `constructor`
or `toString`) yields a truthy non-tool value instead, so the server
answers with a `-32603` response reporting that `tool.handler` is not a
function. -/
theorem spec_c2 (env : Env) (id : Option RpcId) (p : JVal) (name : String)
    (hname : jsGetProp p "name" = some (.str name))
    (hnot : name ∉ registeredToolNames) :
    (name ∉ objectProtoKeys →
      handleMessage env ⟨"tools/call", some p, id⟩ =
        [errorResponse id (-32602)
          ("Tool \"" ++ name ++ "\" not found. Available tools: " ++
            availableToolNames)]) ∧
    (name ∈ objectProtoKeys →
      handleMessage env ⟨"tools/call", some p, id⟩ =
        [errorResponse id (-32603)
          ("Tool execution failed: " ++ handlerNotFunctionMsg)]) := by
  have e0 : handleMessage env ⟨"tools/call", some p, id⟩ =
      match handleToolCallE env id (some p) with
      | .ok r => [r]
      | .error m => [errorResponse id (-32603) ("Internal error: " ++ m)] := rfl
  rcases p with _ | b | n | s | elems | fields
  · simp [jsGetProp] at hname
  · simp [jsGetProp] at hname
  · simp [jsGetProp] at hname
  · simp [jsGetProp] at hname
  · simp [jsGetProp] at hname
  · have e1 : handleToolCallE env id (some (.obj fields)) =
        match mcpTools.find?
            (fun t => t.name == jsToStr (jsGetProp (JVal.obj fields) "name")) with
        | none =>
          if jsToStr (jsGetProp (JVal.obj fields) "name") ∈ objectProtoKeys then
            .ok (errorResponse id (-32603)
              ("Tool execution failed: " ++ handlerNotFunctionMsg))
          else
            .ok (errorResponse id (-32602)
              ("Tool \"" ++ jsToStr (jsGetProp (JVal.obj fields) "name") ++
                "\" not found. Available tools: " ++ availableToolNames))
        | some t =>
          match t.run env (jsGetProp (JVal.obj fields) "arguments") with
          | .ok text => .ok (successToolResponse id text)
          | .raise m => .ok (errorResponse id (-32603)
              ("Tool execution failed: " ++ m)) := rfl
    constructor
    · intro hpk
      rw [e0, e1, hname]
      simp only [jsToStr, jsToStrV]
      rw [find_none_of_not_mem name hnot, if_neg hpk]
    · intro hpk
      rw [e0, e1, hname]
      simp only [jsToStr, jsToStrV]
      rw [find_none_of_not_mem name hnot, if_pos hpk]

/-- Witness for C2 (amended) at the concrete names `nonexistent_tool` (not
on the prototype chain, so `-32602` with the enumeration) and
`constructor` (inherited, so `-32603` handler-not-a-function). -/
theorem spec_c2_witness :
    handleMessage demoEnv
        ⟨"tools/call",
         some (mkToolCallParams "nonexistent_tool" (some (.obj []))),
         some (.num 2)⟩ =
      [errorResponse (some (.num 2)) (-32602)
        ("Tool \"" ++ "nonexistent_tool" ++ "\" not found. Available tools: " ++
          availableToolNames)] ∧
    handleMessage demoEnv
        ⟨"tools/call",
         some (mkToolCallParams "constructor" (some (.obj []))),
         some (.num 2)⟩ =
      [errorResponse (some (.num 2)) (-32603)
        ("Tool execution failed: " ++ handlerNotFunctionMsg)] :=
  ⟨(spec_c2 demoEnv (some (.num 2))
      (mkToolCallParams "nonexistent_tool" (some (.obj []))) "nonexistent_tool"
      rfl (by decide)).1 (by decide),
   (spec_c2 demoEnv (some (.num 2))
      (mkToolCallParams "constructor" (some (.obj []))) "constructor"
      rfl (by decide)).2 (by decide)⟩

/-- Counterexample for C2 as stated: the unknown-tool response carries code
`-32602`, not `-32601`. -/
theorem spec_c2_counterexample :
    handleMessage demoEnv
        ⟨"tools/call",
         some (mkToolCallParams "nonexistent_tool" (some (.obj []))),
         some (.num 2)⟩ =
      [errorResponse (some (.num 2)) (-32602)
        ("Tool \"nonexistent_tool\" not found. Available tools: find_sales_content, get_competitive_intel, find_process_workflows, discover_playbooks")] ∧
    ((-32602 : Int) ≠ -32601) := by
  refine ⟨rfl, ?_⟩
  decide

lemma handleToolCallE_mk (env : Env) (id : Option RpcId) (name : String)
    (args : Option JVal) :
    handleToolCallE env id (some (mkToolCallParams name args)) =
      match mcpTools.find? (fun t => t.name == name) with
      | none =>
        if name ∈ objectProtoKeys then
          .ok (errorResponse id (-32603)
            ("Tool execution failed: " ++ handlerNotFunctionMsg))
        else
          .ok (errorResponse id (-32602)
            ("Tool \"" ++ name ++ "\" not found. Available tools: " ++
              availableToolNames))
      | some t =>
        match t.run env args with
        | .ok text => .ok (successToolResponse id text)
        | .raise m => .ok (errorResponse id (-32603)
            ("Tool execution failed: " ++ m)) := by
  cases args <;> rfl

lemma handleMessage_run_ok (env : Env) (id : Option RpcId) (name : String)
    (args : Option JVal) (t : MCPTool) (text : String)
    (hfind : mcpTools.find? (fun tt => tt.name == name) = some t)
    (hrun : t.run env args = .ok text) :
    handleMessage env (mkToolCallMsg name args id) =
      [successToolResponse id text] := by
  have e := handleToolCallE_mk env id name args
  rw [hfind] at e
  have e2 : handleToolCallE env id (some (mkToolCallParams name args)) =
      match t.run env args with
      | .ok text => Except.ok (successToolResponse id text)
      | .raise m => Except.ok (errorResponse id (-32603)
          ("Tool execution failed: " ++ m)) := by rw [e]
  rw [hrun] at e2
  show (match handleToolCallE env id (some (mkToolCallParams name args)) with
        | .ok r => [r]
        | .error m => [errorResponse id (-32603) ("Internal error: " ++ m)]) = _
  rw [e2]

lemma handleMessage_run_raise (env : Env) (id : Option RpcId) (name : String)
    (args : Option JVal) (t : MCPTool) (m : String)
    (hfind : mcpTools.find? (fun tt => tt.name == name) = some t)
    (hrun : t.run env args = .raise m) :
    handleMessage env (mkToolCallMsg name args id) =
      [errorResponse id (-32603) ("Tool execution failed: " ++ m)] := by
  have e := handleToolCallE_mk env id name args
  rw [hfind] at e
  have e2 : handleToolCallE env id (some (mkToolCallParams name args)) =
      match t.run env args with
      | .ok text => Except.ok (successToolResponse id text)
      | .raise m => Except.ok (errorResponse id (-32603)
          ("Tool execution failed: " ++ m)) := by rw [e]
  rw [hrun] at e2
  show (match handleToolCallE env id (some (mkToolCallParams name args)) with
        | .ok r => [r]
        | .error m => [errorResponse id (-32603) ("Internal error: " ++ m)]) = _
  rw [e2]

/-- C7: a `tools/call` whose arguments fail the tool's schema validation is
answered with exactly one success response whose text is that tool's
formatted invalid-input block — never a JSON-RPC error object.  This holds
for every registered tool. -/
theorem spec_c7 (env : Env) (id : Option RpcId) (args : Option JVal) :
    (∀ issues, validateFSC args = .error issues →
      handleMessage env (mkToolCallMsg "find_sales_content" args id) =
        [successToolResponse id (fscValidationText issues)]) ∧
    (∀ issues, validateGCI args = .error issues →
      handleMessage env (mkToolCallMsg "get_competitive_intel" args id) =
        [successToolResponse id (gciValidationText issues)]) ∧
    (∀ issues, validateFPW args = .error issues →
      handleMessage env (mkToolCallMsg "find_process_workflows" args id) =
        [successToolResponse id (fpwValidationText issues)]) ∧
    (∀ issues, validateDPB args = .error issues →
      handleMessage env (mkToolCallMsg "discover_playbooks" args id) =
        [successToolResponse id (dpbValidationText issues)]) ∧
    (∀ text, (successToolResponse id text).error = none ∧
      (successToolResponse id text).result.isSome = true) := by
  refine ⟨?_, ?_, ?_, ?_, fun _ => ⟨rfl, rfl⟩⟩
  · intro issues h
    have h1 : fscRun env args = .ok (fscValidationText issues) := by
      unfold fscRun; rw [h]
    exact handleMessage_run_ok env id "find_sales_content" args
      findSalesContentTool (fscValidationText issues) rfl h1
  · intro issues h
    have h1 : gciRun env args = .ok (gciValidationText issues) := by
      unfold gciRun; rw [h]
    exact handleMessage_run_ok env id "get_competitive_intel" args
      getCompetitiveIntelTool (gciValidationText issues) rfl h1
  · intro issues h
    have h1 : fpwRun env args = .ok (fpwValidationText issues) := by
      unfold fpwRun; rw [h]
    exact handleMessage_run_ok env id "find_process_workflows" args
      findProcessWorkflowsTool (fpwValidationText issues) rfl h1
  · intro issues h
    have h1 : dpbRun env args = .ok (dpbValidationText issues) := by
      unfold dpbRun; rw [h]
    exact handleMessage_run_ok env id "discover_playbooks" args
      discoverPlaybooksTool (dpbValidationText issues) rfl h1

/-- Witness for C7: calling `find_sales_content` with empty arguments (the
required `query` missing) yields the formatted invalid-input success
response. -/
theorem spec_c7_witness :
    handleMessage demoEnv
        (mkToolCallMsg "find_sales_content" (some (.obj [])) (some (.num 3))) =
      [successToolResponse (some (.num 3))
        (fscValidationText [⟨["query"], "Required"⟩])] :=
  (spec_c7 demoEnv (some (.num 3)) (some (.obj []))).1
    [⟨["query"], "Required"⟩] rfl

/-- C9 (amended): with no API client configured, a `tools/call` for each of
the four listed tools with a minimal valid argument set yields exactly one
response: a success envelope with non-empty text for `discover_playbooks`
(its demo path), and a `-32603` tool-execution-failed error envelope for
the three API-backed tools (whose handlers throw when the API request
cannot be made) — never an unhandled exception terminating the loop. -/
theorem spec_c9 (env : Env) (h : env.client = none) :
    registeredToolNames =
      ["find_sales_content", "get_competitive_intel",
       "find_process_workflows", "discover_playbooks"] ∧
    handleMessage env (mkToolCallMsg "find_sales_content"
        (some (.obj [("query", .str "test")])) (some (.num 9))) =
      [errorResponse (some (.num 9)) (-32603)
        ("Tool execution failed: Search failed: " ++ cannotReadNull "request")] ∧
    handleMessage env (mkToolCallMsg "get_competitive_intel"
        (some (.obj [("competitor", .str "EWS")])) (some (.num 9))) =
      [errorResponse (some (.num 9)) (-32603)
        ("Tool execution failed: Competitive intelligence lookup failed: " ++
          cannotReadNull "request")] ∧
    handleMessage env (mkToolCallMsg "find_process_workflows"
        (some (.obj [("processType", .str "poc")])) (some (.num 9))) =
      [errorResponse (some (.num 9)) (-32603)
        ("Tool execution failed: Process workflow search failed: " ++
          cannotReadNull "request")] ∧
    handleMessage env (mkToolCallMsg "discover_playbooks"
        (some (.obj [])) (some (.num 9))) =
      [successToolResponse (some (.num 9)) dpbMissingFiltersText] ∧
    dpbMissingFiltersText ≠ "" := by
  refine ⟨rfl, ?_, ?_, ?_, ?_, by decide⟩
  · have h1 : fscRun env (some (.obj [("query", .str "test")])) =
        .raise ("Search failed: " ++ cannotReadNull "request") := by
      unfold fscRun
      rw [show validateFSC (some (.obj [("query", .str "test")])) =
        .ok ⟨"test", none, none, none, none, none, none, 10, false⟩ from rfl]
      rw [h]
    exact handleMessage_run_raise env (some (.num 9)) "find_sales_content" _
      findSalesContentTool _ rfl h1
  · have h1 : gciRun env (some (.obj [("competitor", .str "EWS")])) =
        .raise ("Competitive intelligence lookup failed: " ++
          cannotReadNull "request") := by
      unfold gciRun
      rw [show validateGCI (some (.obj [("competitor", .str "EWS")])) =
        .ok ⟨"EWS", none, none, true⟩ from rfl]
      rw [h]
      rfl
    exact handleMessage_run_raise env (some (.num 9)) "get_competitive_intel" _
      getCompetitiveIntelTool _ rfl h1
  · have h1 : fpwRun env (some (.obj [("processType", .str "poc")])) =
        .raise ("Process workflow search failed: " ++ cannotReadNull "request") := by
      unfold fpwRun
      rw [show validateFPW (some (.obj [("processType", .str "poc")])) =
        .ok ⟨"poc", none, true, true⟩ from rfl]
      rw [h]
    exact handleMessage_run_raise env (some (.num 9)) "find_process_workflows" _
      findProcessWorkflowsTool _ rfl h1
  · have h1 : dpbRun env (some (.obj [])) = .ok dpbMissingFiltersText := rfl
    exact handleMessage_run_ok env (some (.num 9)) "discover_playbooks" _
      discoverPlaybooksTool _ rfl h1

/-- Witness for C9 (amended) in the concrete demo environment. -/
theorem spec_c9_witness :
    registeredToolNames =
      ["find_sales_content", "get_competitive_intel",
       "find_process_workflows", "discover_playbooks"] ∧
    handleMessage demoEnv (mkToolCallMsg "find_sales_content"
        (some (.obj [("query", .str "test")])) (some (.num 9))) =
      [errorResponse (some (.num 9)) (-32603)
        ("Tool execution failed: Search failed: " ++ cannotReadNull "request")] ∧
    handleMessage demoEnv (mkToolCallMsg "get_competitive_intel"
        (some (.obj [("competitor", .str "EWS")])) (some (.num 9))) =
      [errorResponse (some (.num 9)) (-32603)
        ("Tool execution failed: Competitive intelligence lookup failed: " ++
          cannotReadNull "request")] ∧
    handleMessage demoEnv (mkToolCallMsg "find_process_workflows"
        (some (.obj [("processType", .str "poc")])) (some (.num 9))) =
      [errorResponse (some (.num 9)) (-32603)
        ("Tool execution failed: Process workflow search failed: " ++
          cannotReadNull "request")] ∧
    handleMessage demoEnv (mkToolCallMsg "discover_playbooks"
        (some (.obj [])) (some (.num 9))) =
      [successToolResponse (some (.num 9)) dpbMissingFiltersText] ∧
    dpbMissingFiltersText ≠ "" :=
  spec_c9 demoEnv rfl

/-- Counterexample for C9 as stated: with no API configured, the minimal
valid `find_sales_content` call produces a `-32603` error envelope (its
`result` field is absent), which is neither a success envelope nor a
validation-message text. -/
theorem spec_c9_counterexample :
    handleMessage demoEnv (mkToolCallMsg "find_sales_content"
        (some (.obj [("query", .str "test")])) (some (.num 9))) =
      [errorResponse (some (.num 9)) (-32603)
        ("Tool execution failed: Search failed: " ++ cannotReadNull "request")] ∧
    (errorResponse (some (.num 9)) (-32603)
        ("Tool execution failed: Search failed: " ++ cannotReadNull "request")).result
      = none ∧
    (errorResponse (some (.num 9)) (-32603)
        ("Tool execution failed: Search failed: " ++ cannotReadNull "request")).error
      ≠ none := by
  refine ⟨rfl, rfl, by simp [errorResponse]⟩

/-- C10 (amended): a `tools/call` whose `params` is absent or `null` makes
the `{name, arguments}` destructuring throw; the dispatcher catches it and
answers with a single `-32603` internal-error response echoing the
request's id, and the read loop continues with the remaining lines. -/
theorem spec_c10 (env : Env) (i : RpcId) (line : String) (rest : List String) :
    (env.parseLine (jsTrim line) = some ⟨"tools/call", none, some i⟩ →
      processLines env (line :: rest) =
        errorResponse (some i) (-32603) ("Internal error: " ++ destructUndefMsg)
          :: processLines env rest) ∧
    (env.parseLine (jsTrim line) = some ⟨"tools/call", some JVal.null, some i⟩ →
      processLines env (line :: rest) =
        errorResponse (some i) (-32603) ("Internal error: " ++ destructNullMsg)
          :: processLines env rest) := by
  constructor <;> intro h <;>
    · show processLine env line ++ processLines env rest = _
      rw [show processLine env line =
        match env.parseLine (jsTrim line) with
        | none => [parseErrorResponse]
        | some msg => handleMessage env msg from rfl]
      rw [h]
      rfl

/-- Witness for C10 (amended) in environments that parse every line into
the two failing shapes. -/
theorem spec_c10_witness :
    processLines envParamsAbsent ["anything"] =
      [errorResponse (some (.num 7)) (-32603)
        ("Internal error: " ++ destructUndefMsg)] ∧
    processLines envParamsNull ["anything"] =
      [errorResponse (some (.num 7)) (-32603)
        ("Internal error: " ++ destructNullMsg)] := by
  constructor
  · have h := (spec_c10 envParamsAbsent (.num 7) "anything" []).1 rfl
    simpa [processLines] using h
  · have h := (spec_c10 envParamsNull (.num 7) "anything" []).2 rfl
    simpa [processLines] using h

/-- Counterexample for C10 as stated: a `tools/call` whose `params` is a
number (not an object) does not produce a `-32603` internal error — the
destructuring succeeds with an undefined name, and the server answers with
the `-32602` tool-not-found response instead. -/
theorem spec_c10_counterexample :
    handleMessage demoEnv ⟨"tools/call", some (.num 42), some (.num 7)⟩ =
      [errorResponse (some (.num 7)) (-32602)
        ("Tool \"undefined\" not found. Available tools: " ++
          availableToolNames)] ∧
    ((-32602 : Int) ≠ -32603) := by
  refine ⟨rfl, by decide⟩
